import Mathlib

/-!
Shallow embedding of `dgroc.py` (daily git rebuild on copr) and proofs about
its behaviour.  Pure fragments of the Python source are translated into
executable Lean functions; external effects (subprocess calls, the
filesystem, the copr service, the current date) are passed in explicitly as
oracle parameters, and the process-wide mutable state (current working
directory, the in-memory `ConfigParser` object, the number of `pull`
invocations) is threaded through a small state record.  Machine-level
details (Python exceptions) are modelled with an explicit error type.
-/

set_option autoImplicit false

namespace Dgroc

/-- Python-level failures observable from `dgroc.py`: the repo's own
`DgrocException` (with its message), `ConfigParser.NoOptionError` (with the
option name), `NameError` (reading a never-assigned variable), `IndexError`
(out-of-range list subscript), an exception escaping the VCS `clone` call,
and an `ImportError` from `reader.init`. -/
inductive PyErr where
  | dgroc : String → PyErr
  | noOption : String → PyErr
  | nameError : PyErr
  | indexError : PyErr
  | cloneError : PyErr
  | importError : PyErr
  deriving DecidableEq, Repr

/-! ## Python string primitives

Python 2 string semantics on ASCII data: `\s` of the `re` module is
`[ \t\n\r\f\v]`, `str.isdigit` is true only for non-empty all-digit
strings, `str.rstrip`/`str.strip` drop whitespace, `str.split(sep)` cuts on
every non-overlapping occurrence of `sep` scanning left to right. -/

/-- The six ASCII whitespace characters of Python 2's `\s` and `str.strip`. -/
def pyIsSpaceChar (c : Char) : Bool :=
  c == ' ' || c == '\t' || c == '\n' || c == '\r' || c == '\x0b' || c == '\x0c'

/-- Bool-valued infix test on lists: `needle` occurs contiguously in the
other list. -/
def listIsInfixOf {α : Type} [BEq α] (needle : List α) : List α → Bool
  | [] => needle.isEmpty
  | c :: rest => needle.isPrefixOf (c :: rest) || listIsInfixOf needle rest

/-- Python `needle in hay` on strings (substring containment). -/
def pyIn (needle hay : String) : Bool :=
  listIsInfixOf needle.toList hay.toList

/-- Python `s.startswith(p)`. -/
def pyStartsWith (s p : String) : Bool :=
  p.toList.isPrefixOf s.toList

/-- Python `s.rstrip()`. -/
def pyRstrip (s : String) : String :=
  ⟨(s.toList.reverse.dropWhile pyIsSpaceChar).reverse⟩

/-- Python `s.strip()`. -/
def pyStrip (s : String) : String :=
  ⟨((s.toList.dropWhile pyIsSpaceChar).reverse.dropWhile pyIsSpaceChar).reverse⟩

/-- Python `s.isdigit()` (false on the empty string). -/
def pyIsDigit (s : String) : Bool :=
  !s.toList.isEmpty && s.toList.all Char.isDigit

/-- Python `int(s)` on an all-digit string. -/
def pyInt (s : String) : Nat :=
  s.toList.foldl (fun a c => a * 10 + (c.toNat - '0'.toNat)) 0

/-- Worker for `pySplit`: cut the character list on every occurrence of the
separator `d :: ds`, accumulating the current piece in reverse in `acc`.
The fuel argument dominates the number of characters still to scan, so a
call with fuel `s.length + 1` never hits the `0` case. -/
def pySplitAux (d : Char) (ds : List Char) : Nat → List Char → List Char → List (List Char)
  | 0, _, acc => [acc.reverse]
  | _ + 1, [], acc => [acc.reverse]
  | fuel + 1, c :: rest, acc =>
    if (d :: ds).isPrefixOf (c :: rest) then
      acc.reverse :: pySplitAux d ds fuel (rest.drop ds.length) []
    else
      pySplitAux d ds fuel rest (c :: acc)

/-- Python `s.split(sep)` for a non-empty separator (every use in the
source passes a non-empty literal; Python would raise `ValueError` on an
empty separator, which never happens here). -/
def pySplit (s sep : String) : List String :=
  match sep.toList with
  | [] => [s]
  | d :: ds => (pySplitAux d ds (s.toList.length + 1) s.toList []).map (fun l => ⟨l⟩)

/-! ## The archive-name pattern

`_get_archive_name` scans with `re.search(project + r"\-[^\s]*\.tar(\.gz|\.bz2)", line)`.
The functions below implement exactly that backtracking search for a
project name that stands for itself in the pattern (the source interpolates
the configured project name into the regex verbatim; dgroc project names
are ordinary section names without regex metacharacters).  `re.search`
returns the leftmost match; at a fixed start, `[^\s]*` is greedy with
backtracking, then the literal `.tar` and the mandatory alternation
`(.gz|.bz2)` must follow. -/

/-- Match the tail `\.tar(\.gz|\.bz2)` of the pattern at the head of `s`,
returning the consumed characters. -/
def tryTail (s : List Char) : Option (List Char) :=
  if ".tar.gz".toList.isPrefixOf s then some ".tar.gz".toList
  else if ".tar.bz2".toList.isPrefixOf s then some ".tar.bz2".toList
  else none

/-- Match `[^\s]*\.tar(\.gz|\.bz2)` at the head of `s`: greedily consume
non-whitespace characters, backtracking to the point where the literal tail
matches. -/
def matchMiddle : List Char → Option (List Char)
  | [] => tryTail []
  | c :: rest =>
    if pyIsSpaceChar c then tryTail (c :: rest)
    else
      match matchMiddle rest with
      | some m => some (c :: m)
      | none => tryTail (c :: rest)

/-- Match the whole pattern anchored at the head of `s`. -/
def matchAt (proj s : List Char) : Option (List Char) :=
  if (proj ++ ['-']).isPrefixOf s then
    (matchMiddle (s.drop (proj.length + 1))).map (fun m => proj ++ '-' :: m)
  else none

/-- `re.search`: try the pattern at each start position, left to right. -/
def searchFrom (proj : List Char) : List Char → Option (List Char)
  | [] => matchAt proj []
  | c :: rest =>
    match matchAt proj (c :: rest) with
    | some m => some m
    | none => searchFrom proj rest

/-- `re.search(project + r"\-[^\s]*\.tar(\.gz|\.bz2)", line)` followed by
`.group()`. -/
def pySearch (project line : String) : Option String :=
  (searchFrom project.toList line.toList).map (fun l => ⟨l⟩)

/-- `_get_archive_name(out, project)`: iterate over the entries of `out`
(the caller passes the `(stdout, stderr)` pair returned by
`communicate()`), keep the match of the last entry that has one, and raise
`DgrocException('No archive name found.')` when the name is still empty. -/
def get_archive_name (out : List String) (project : String) : Except PyErr String :=
  let name := out.foldl
    (fun acc line =>
      match pySearch project line with
      | some m => m
      | none => acc) ""
  if name == "" then .error (.dgroc "No archive name found.") else .ok name

example : pySearch "foo" "foo-git1a2b3c4.tar.gz created" = some "foo-git1a2b3c4.tar.gz" := by
  rfl

example : pySearch "foo" "foo-1.tar created" = none := by rfl

example : pySplit "Release:        1.2" "ase:" = ["Rele", "        1.2"] := by rfl

/-! ## The release rewrite of `update_spec`

Source lines 180-188: strip the dist macro, split on `.`, drop the last
component when the backend tag occurs in it (`reader.short in rel_list[-1]`
is a substring test), bump a purely numeric last component, and recompose
the `Release:` line with the fresh `<YYYYMMDD><short><commit_hash>` token. -/

/-- `if reader.short in rel_list[-1]: rel_list = rel_list[:-1]`.  The list
produced by `split` is never empty, so `rel_list[-1]` cannot fail here; the
`none` branch is unreachable. -/
def rel_drop (short : String) (l : List String) : List String :=
  match l.getLast? with
  | some last => if listIsInfixOf short.toList last.toList then l.dropLast else l
  | none => l

/-- `if rel_list[-1].isdigit(): rel_list[-1] = str(int(rel_list[-1])+1)`,
then `'.'.join(rel_list)`.  After `rel_drop` the list may be empty, in
which case Python's `rel_list[-1]` raises `IndexError`. -/
def rel_bump (l : List String) : Except PyErr (List String) :=
  match l.getLast? with
  | none => .error .indexError
  | some last =>
    .ok (if pyIsDigit last then l.dropLast ++ [toString (pyInt last + 1)] else l)

/-- The whole release-number transformation applied to the stripped release
value (`rel_num` in the source). -/
def rel_transform (short rel0 : String) : Except PyErr String :=
  (rel_bump (rel_drop short (pySplit rel0 "."))).map (String.intercalate ".")

/-- Processing of one `Release:` line (source lines 176-188) given the
`%Y%m%d` date string: raise `DgrocException('Spec already up to date')`
when the commit hash already occurs in the line, otherwise strip, split and
rebuild the line.  Returns the new line together with the new `rel_num`
(the latter is reused by the changelog entry). -/
def release_row_update (today_ymd short commit_hash row : String) :
    Except PyErr (String × String) :=
  if pyIn commit_hash row then .error (.dgroc "Spec already up to date")
  else
    match (pySplit row "ase:").get? 1 with
    | none => .error .indexError
    | some t =>
      let rel0 := ((pySplit (pyStrip t) "%\x7b?dist").headD "")
      match rel_transform short rel0 with
      | .error e => .error e
      | .ok rel =>
        .ok ("Release:        " ++ rel ++ "." ++ (today_ymd ++ short ++ commit_hash)
              ++ "%\x7b?dist\x7d", rel)

example : rel_transform "git" "1" = .ok "2" := by rfl

example : rel_transform "git" "1.2" = .ok "1.3" := by rfl

example : rel_transform "git" "2.20140101gitdead" = .ok "3" := by rfl

example : rel_transform "git" "5.abc" = .ok "5.abc" := by rfl

example :
    release_row_update "20140405" "git" "abcd" "Release:        1%\x7b?dist\x7d"
      = .ok ("Release:        2.20140405gitabcd%\x7b?dist\x7d", "2") := by rfl

/-! ## `update_spec`

The line-oriented rewrite (source lines 162-207), modelled on the list of
(newline-free) lines of the spec file.  The ambient date is passed in as
the two strftime renderings the source computes; `rpm.expandMacro` is an
external collaborator and is modelled as the identity (the composed
changelog header contains no rpm macro for plain inputs);
`rpm.spec(spec_file)` only validates the file and is not modelled. -/

/-- Loop state of `update_spec`: the captured `version`, the last computed
`rel_num` (unassigned before the first `Release:` line — reading it then is
Python's `NameError`), and the accumulated output lines. -/
structure USt where
  version : Option String
  rel_num : Option String
  out : List String
  deriving DecidableEq, Repr

/-- One iteration of the `for row in stream` loop of `update_spec`. -/
def updStep (today_ymd today_chlog commit_hash archive_name packager email short : String)
    (st : USt) (row0 : String) : Except PyErr USt :=
  let row := pyRstrip row0
  let versionStep : Except PyErr (Option String) :=
    if pyStartsWith row "Version:" then
      match (pySplit row "Version:").get? 1 with
      | none => .error .indexError
      | some v => .ok (some (pyStrip v))
    else .ok st.version
  match versionStep with
  | .error e => .error e
  | .ok version =>
    let relStep : Except PyErr (String × Option String) :=
      if pyStartsWith row "Release:" then
        match release_row_update today_ymd short commit_hash row with
        | .error e => .error e
        | .ok (row1, rel) => .ok (row1, some rel)
      else .ok (row, st.rel_num)
    match relStep with
    | .error e => .error e
    | .ok (row1, rel_num) =>
      let row2 := if pyStartsWith row1 "Source0:" then "Source0:        " ++ archive_name else row1
      if pyStartsWith row2 "%changelog" then
        match rel_num with
        | none => .error .nameError
        | some rel =>
          .ok { version := version, rel_num := rel_num,
                out := st.out ++
                  [row2,
                   "* " ++ today_chlog ++ " " ++ packager ++ " <" ++ email ++ "> - "
                     ++ (match version with | some v => v | none => "None") ++ "-" ++ rel
                     ++ "." ++ (today_ymd ++ short ++ commit_hash),
                   "- Update to " ++ short ++ ": " ++ commit_hash,
                   ""] }
      else .ok { version := version, rel_num := rel_num, out := st.out ++ [row2] }

/-- The `for row in stream` loop folded over all lines. -/
def updFold (today_ymd today_chlog commit_hash archive_name packager email short : String)
    (st : USt) : List String → Except PyErr USt
  | [] => .ok st
  | l :: ls =>
    match updStep today_ymd today_chlog commit_hash archive_name packager email short st l with
    | .error e => .error e
    | .ok st' => updFold today_ymd today_chlog commit_hash archive_name packager email short st' ls

/-- `update_spec` on the file contents: returns the rewritten lines, or the
exception raised during the read loop (in which case the write never
happens). -/
def update_spec (today_ymd today_chlog commit_hash archive_name packager email short : String)
    (lines : List String) : Except PyErr (List String) :=
  (updFold today_ymd today_chlog commit_hash archive_name packager email short
    ⟨none, none, []⟩ lines).map USt.out

/-- The observable effect of `update_spec` on the spec file: the rewritten
lines on success, the untouched file when any exception is raised (the
output file is only opened for writing after the read loop finishes). -/
def update_spec_run (today_ymd today_chlog commit_hash archive_name packager email short : String)
    (lines : List String) : List String :=
  match update_spec today_ymd today_chlog commit_hash archive_name packager email short lines with
  | .ok out => out
  | .error _ => lines

example :
    update_spec "20140405" "Sat Apr 05 2014" "abcd1234" "proj-abcd1234.tar" "bob" "b@x" "git"
      ["Name: proj", "Version:        1.0", "Release:        1%\x7b?dist\x7d",
       "Source0:        old.tar", "%changelog"]
    = .ok ["Name: proj", "Version:        1.0",
           "Release:        2.20140405gitabcd1234%\x7b?dist\x7d",
           "Source0:        proj-abcd1234.tar", "%changelog",
           "* Sat Apr 05 2014 bob <b@x> - 1.0-2.20140405gitabcd1234",
           "- Update to git: abcd1234", ""] := by rfl

example :
    update_spec "20140405" "Sat Apr 05 2014" "abcd" "a.tar" "bob" "b@x" "git"
      ["Release:        2.20140101gitabcd%\x7b?dist\x7d"]
    = .error (.dgroc "Spec already up to date") := by rfl

/-! ## The `ConfigParser` object

Modelled as an association list of `(section, option, value)` triples.
`set` conses a fresh triple (lookup returns the first hit, so this is the
usual overriding update); `get` on a missing option raises
`ConfigParser.NoOptionError`.  All option names appearing in the source are
already lower case, so the `optionxform` lower-casing is the identity
here. -/

/-- In-memory configuration: `(section, option, value)` triples. -/
def Config : Type := List (String × String × String)

instance : DecidableEq Config := by unfold Config; exact inferInstance

/-- First value stored for `(sec, opt)`, if any. -/
def cfgLookup (cfg : Config) (sec opt : String) : Option String :=
  match cfg.find? (fun e => e.1 == sec && e.2.1 == opt) with
  | some e => some e.2.2
  | none => none

/-- `config.has_option(sec, opt)`. -/
def cfgHasOption (cfg : Config) (sec opt : String) : Bool :=
  (cfgLookup cfg sec opt).isSome

/-- `config.get(sec, opt)`: raises `NoOptionError` when absent. -/
def cfgGet (cfg : Config) (sec opt : String) : Except PyErr String :=
  match cfgLookup cfg sec opt with
  | some v => .ok v
  | none => .error (.noOption opt)

/-- `config.set(sec, opt, value)`. -/
def cfgSet (cfg : Config) (sec opt value : String) : Config :=
  (sec, opt, value) :: cfg

/-! ## Change detection (source lines 337-344)

The source contains a quoting slip, twice: `'%s_hash  % reader.short'` is a
*literal* option name (the `%` formatting is inside the string), so the
absent-hash branch stores the commit under that malformed key, and the
present-but-different branch reads that malformed key — normally absent —
which raises `ConfigParser.NoOptionError`. -/

/-- The malformed literal option name appearing (twice) in the source. -/
def weirdKey : String := "%s_hash  % reader.short"

/-- Lines 337-344 of `generate_new_srpm`: decide whether the project
changed; returns the flag together with the possibly mutated config
object. -/
def check_changed (cfg : Config) (project short commit_hash : String) :
    Except PyErr (Bool × Config) :=
  if !cfgHasOption cfg project (short ++ "_hash") then
    .ok (true, cfgSet cfg project weirdKey commit_hash)
  else
    match cfgGet cfg project (short ++ "_hash") with
    | .error e => .error e
    | .ok v =>
      if v == commit_hash then .ok (false, cfg)
      else
        match cfgGet cfg project weirdKey with
        | .error e => .error e
        | .ok w => if w != commit_hash then .ok (true, cfg) else .ok (false, cfg)

example :
    check_changed [("p", "git_hash", "aaaaaaaa")] "p" "git" "bbbbbbbb"
      = .error (.noOption weirdKey) := by rfl

example :
    check_changed [("p", "git_hash", "aaaaaaaa")] "p" "git" "aaaaaaaa"
      = .ok (false, [("p", "git_hash", "aaaaaaaa")]) := by rfl

/-! ## Process-wide state and the external world

`os.getcwd`/`os.chdir` mutate the process working directory; the config
object is mutated in place; `pull` spawns a subprocess each time it is
called.  `St` threads this state.  `World` fixes the outcome of every
external effect: subprocess results are indexed by how many `pull`s have
run so far, so the first attempt and the post-re-clone attempt can
differ. -/

/-- Threaded process state. -/
structure St where
  cwd : String
  folderExists : Bool
  cfg : Config
  pulls : Nat
  deriving DecidableEq

/-- Outcomes of all external effects, fixed up front. -/
structure World where
  backendOk : Bool
  cloneOk : Nat → Bool
  pullRc : Nat → Nat
  commitHash : Nat → String
  archiveOut : List String
  archiveFileExists : String → Bool
  specLines : List String
  today_ymd : String
  today_chlog : String
  buildRc : Nat
  buildOut : String

/-- `generate_archive` (source lines 239-275).  With an `archive_cmd`
configured the expected name is unknown, the command output is scanned and
the archive file must exist; note that on both failure paths of that
scan the function raises while the working directory is still the project
folder — the `os.chdir(cwd)` of line 273 is never reached. -/
def generate_archive (w : World) (st : St) (project git_folder commit_hash : String) :
    Except PyErr String × St :=
  let explicit := cfgHasOption st.cfg project "archive_cmd"
  let archive_name := if explicit then "" else project ++ "-" ++ commit_hash ++ ".tar"
  let cwd0 := st.cwd
  let st1 : St := { st with cwd := git_folder }
  if archive_name == "" then
    match get_archive_name w.archiveOut project with
    | .error e => (.error e, st1)
    | .ok name =>
      if !w.archiveFileExists (git_folder ++ "/" ++ name) then
        (.error (.dgroc "No archive to generate SRPM."), st1)
      else
        (.ok name, { st1 with cwd := cwd0 })
  else
    (.ok archive_name, { st1 with cwd := cwd0 })

/-- Backend selection (source lines 282-289): default `git`, explicit
`git`/`hg`, anything else raises. -/
def readerShortFor (cfg : Config) (project : String) : Except PyErr String :=
  if !cfgHasOption cfg project "scm" then .ok "git"
  else
    match cfgGet cfg project "scm" with
    | .error e => .error e
    | .ok v =>
      if v == "git" then .ok "git"
      else if v == "hg" then .ok "hg"
      else .error (.dgroc "unknown scm option")

/-- `generate_new_srpm` (source lines 278-405).  The `retries` argument
encodes the `first` flag: `1` for `first=True`, `0` for `first=False`; the
recursive re-clone call passes `first=False`.  Faithful to the source, the
value of that recursive call is discarded — after a pull failure the
function always falls through to the bare `return` and yields `none`.
External library calls: `os.path.expanduser` is treated as the identity,
the `patch_files` copying loop only touches the rpm source dir and is a
no-op here, `rpmbuild` output parsing follows line 402. -/
def generate_new_srpm (w : World) (project : String) : Nat → St → Except PyErr (Option String) × St
  | retries, st =>
    match readerShortFor st.cfg project with
    | .error e => (.error e, st)
    | .ok short =>
      if !w.backendOk then (.error .importError, st)
      else if !cfgHasOption st.cfg project (short ++ "_folder") then
        (.error (.dgroc "no folder option"), st)
      else
        match cfgGet st.cfg project (short ++ "_folder") with
        | .error e => (.error e, st)
        | .ok git_folder =>
          if !cfgHasOption st.cfg project (short ++ "_url") && !st.folderExists then
            (.error (.dgroc "no url option and folder does not exist"), st)
          else if !cfgHasOption st.cfg project "spec_file" then
            (.error (.dgroc "no spec_file option"), st)
          else
            let cloneStep : Except PyErr St :=
              if !st.folderExists then
                match cfgGet st.cfg project (short ++ "_url") with
                | .error e => .error e
                | .ok _ =>
                  if w.cloneOk st.pulls then .ok { st with folderExists := true }
                  else .error .cloneError
              else .ok st
            match cloneStep with
            | .error e => (.error e, st)
            | .ok st2 =>
              let cwd0 := st2.cwd
              let k := st2.pulls
              let st3 : St := { st2 with cwd := cwd0, pulls := k + 1 }
              if w.pullRc k != 0 then
                match retries with
                | r + 1 =>
                  let st4 : St := { st3 with folderExists := false }
                  match generate_new_srpm w project r st4 with
                  | (.error e, st5) => (.error e, st5)
                  | (.ok _, st5) => (.ok none, st5)
                | 0 => (.ok none, st3)
              else
                let commit_hash := w.commitHash k
                match check_changed st3.cfg project short commit_hash with
                | .error e => (.error e, st3)
                | .ok (changed, cfg') =>
                  let st4 : St := { st3 with cfg := cfg' }
                  if !changed then (.ok none, st4)
                  else
                    match generate_archive w st4 project git_folder commit_hash with
                    | (.error e, st5) => (.error e, st5)
                    | (.ok archive_name, st5) =>
                      match cfgGet st5.cfg project "spec_file" with
                      | .error e => (.error e, st5)
                      | .ok _spec_file =>
                        match cfgGet st5.cfg "main" "username" with
                        | .error e => (.error e, st5)
                        | .ok packager =>
                          match cfgGet st5.cfg "main" "email" with
                          | .error e => (.error e, st5)
                          | .ok email =>
                            match update_spec w.today_ymd w.today_chlog commit_hash
                                archive_name packager email short w.specLines with
                            | .error e => (.error e, st5)
                            | .ok _newLines =>
                              let st6 : St := { st5 with cwd := cwd0 }
                              if w.buildRc != 0 then (.ok none, st6)
                              else
                                match (pySplit w.buildOut "Wrote:").get? 1 with
                                | none => (.error .indexError, st6)
                                | some s => (.ok (some (pyStrip s)), st6)

/-! ## copr submission and monitoring (source lines 408-516) -/

/-- `check_copr_build`: one polling round over the handles, keeping those
whose freshly queried status is not terminal (`status not in
('skipped', 'failed', 'succeeded')`). -/
def check_copr_build (getStatus : Nat → String) (builds_list : List Nat) : List Nat :=
  builds_list.foldl
    (fun unfinished build =>
      if getStatus build == "skipped" || getStatus build == "failed"
          || getStatus build == "succeeded" then unfinished
      else unfinished ++ [build]) []

/-- The `while build_ids:` loop of `main` (lines 513-516): each round
sleeps, then re-queries via `check_copr_build`; `getStatus round build` is
the status reported for `build` on polling round `round`.  Returns the
number of polling rounds performed together with the final handle set;
`fuel` bounds the rounds (the Python loop may not terminate). -/
def monitorLoop (getStatus : Nat → Nat → String) : Nat → Nat → List Nat → Nat × List Nat
  | 0, _, builds => (0, builds)
  | fuel + 1, round, builds =>
    if builds.isEmpty then (0, builds)
    else
      let next := check_copr_build (getStatus round) builds
      let p := monitorLoop getStatus fuel (round + 1) next
      (p.1 + 1, p.2)

/-- `copr_build` (lines 408-442): `_get_copr_client` raises
`DgrocException` when `~/.config/copr` is missing or unreadable; each
project's `create_new_build` is tried individually, exceptions are logged
and the project is excluded (`none` entries); successful builds are
accumulated. -/
def copr_build (coprConfigExists clientOk : Bool)
    (submits : List (String × Option (List Nat))) : Except PyErr (List Nat) :=
  if !coprConfigExists then .error (.dgroc "No `~/.config/copr` file found.")
  else if !clientOk then .error (.dgroc "Failed to read data from the copr configuration file.")
  else
    .ok (submits.foldl
      (fun acc p => match p.2 with | some bs => acc ++ bs | none => acc) [])

/-- Tail of `main` (lines 499-516), after the srpms dictionary has been
collected: nothing to do without srpms or with `--srpm-only`; the
`copr_build` call is wrapped in `try/except DgrocException` that only logs,
leaving `build_ids` unassigned — entering the monitoring branch then reads
the unassigned variable, a `NameError`. -/
def main_tail (srpmonly monitoring : Bool) (srpms : List String)
    (coprConfigExists clientOk : Bool) (submits : List (String × Option (List Nat)))
    (getStatus : Nat → Nat → String) (fuel : Nat) : Except PyErr Unit :=
  if srpms.isEmpty then .ok ()
  else if srpmonly then .ok ()
  else
    match copr_build coprConfigExists clientOk submits with
    | .error (.dgroc _) =>
      if monitoring then .error .nameError else .ok ()
    | .error e => .error e
    | .ok build_ids =>
      if monitoring then
        let _ := monitorLoop getStatus fuel 0 build_ids
        .ok ()
      else .ok ()

/-! ## Helper lemmas -/

lemma foldl_keep_append (p : Nat → Bool) :
    ∀ (l : List Nat) (acc : List Nat),
      l.foldl (fun u b => if p b then u else u ++ [b]) acc
        = acc ++ l.filter (fun b => !p b) := by
  intro l
  induction l with
  | nil => intro acc; simp
  | cons b t ih =>
    intro acc
    by_cases h : p b = true
    · simp [List.foldl_cons, h, ih, List.filter_cons]
    · simp only [Bool.not_eq_true] at h
      simp [List.foldl_cons, h, ih, List.filter_cons, List.append_assoc]

/-- The status oracle of the three-handle monitoring scenario: first poll
reports `running, succeeded, failed`, the second poll `succeeded,
succeeded, failed`. -/
def c8Status (round build : Nat) : String :=
  if round == 0 then
    if build == 0 then "running" else if build == 1 then "succeeded" else "failed"
  else
    if build == 2 then "failed" else "succeeded"

/-- C8: the build-monitoring loop treats exactly `succeeded`, `failed` and
`skipped` as terminal — each round keeps precisely the handles whose
queried status is outside that set — and on the three-handle scenario
(statuses `running, succeeded, failed` on the first poll, `succeeded,
succeeded, failed` on the second) it polls exactly twice and terminates
with an empty remaining set. -/
theorem c8_monitor_terminal_states :
    (∀ (getStatus : Nat → String) (builds : List Nat),
      check_copr_build getStatus builds
        = builds.filter (fun b =>
            !(getStatus b == "skipped" || getStatus b == "failed"
              || getStatus b == "succeeded"))) ∧
    monitorLoop c8Status 10 0 [0, 1, 2] = (2, []) := by
  constructor
  · intro getStatus builds
    unfold check_copr_build
    exact foldl_keep_append
      (fun b => getStatus b == "skipped" || getStatus b == "failed"
        || getStatus b == "succeeded") builds []
  · rfl

/-- C10: when copr-build submission setup fails with the typed
`DgrocException` (here: the copr credential file is missing,
`coprConfigExists = false`) while monitoring is enabled and at least one
SRPM was generated, `main` catches and logs the typed error but then reads
the never-assigned `build_ids` variable: the run ends in a `NameError`. -/
theorem c10_name_error_on_copr_failure (monitoring : Bool) (srpms : List String)
    (clientOk : Bool) (submits : List (String × Option (List Nat)))
    (getStatus : Nat → Nat → String) (fuel : Nat)
    (hm : monitoring = true) (hs : srpms ≠ []) :
    main_tail false monitoring srpms false clientOk submits getStatus fuel
      = .error .nameError := by
  subst hm
  unfold main_tail
  have hempty : srpms.isEmpty = false := by simpa using hs
  simp [hempty, copr_build]

/-- Concrete instance of `c10_name_error_on_copr_failure`. -/
theorem c10_name_error_on_copr_failure_witness :
    main_tail false true ["/tmp/p-1.src.rpm"] false true []
      (fun _ _ => "running") 5 = .error .nameError :=
  c10_name_error_on_copr_failure true ["/tmp/p-1.src.rpm"] true []
    (fun _ _ => "running") 5 rfl (by simp)

/-! ## Archive-name resolution: characterization lemmas (C2, C7) -/

/-- The match of the last entry of `out` that has one: the value
`_get_archive_name` ends up with, since every later match overwrites
`name`. -/
def lastMatch (p : String) : List String → Option String
  | [] => none
  | line :: rest =>
    match lastMatch p rest with
    | some m => some m
    | none => pySearch p line

lemma searchFrom_shape (proj : List Char) :
    ∀ (s m : List Char), searchFrom proj s = some m → ∃ mid, m = proj ++ '-' :: mid := by
  intro s
  induction s with
  | nil =>
    intro m h
    unfold searchFrom matchAt at h
    split at h
    · rcases Option.map_eq_some'.1 h with ⟨mid, _, rfl⟩
      exact ⟨mid, rfl⟩
    · exact absurd h (by simp)
  | cons c rest ih =>
    intro m h
    unfold searchFrom at h
    revert h
    cases hA : matchAt proj (c :: rest) with
    | some m0 =>
      intro h
      unfold matchAt at hA
      split at hA
      · rcases Option.map_eq_some'.1 hA with ⟨mid, _, rfl⟩
        simp only at h
        cases h
        exact ⟨mid, rfl⟩
      · exact absurd hA (by simp)
    | none =>
      intro h
      exact ih m h

lemma pySearch_ne_empty (p line m : String) (h : pySearch p line = some m) : m ≠ "" := by
  unfold pySearch at h
  rcases Option.map_eq_some'.1 h with ⟨l, hl, rfl⟩
  rcases searchFrom_shape p.toList line.toList l hl with ⟨mid, rfl⟩
  intro hcontra
  have : (p.toList ++ '-' :: mid) = ([] : List Char) := congrArg String.data hcontra
  simp at this

lemma get_archive_name_foldl (p : String) :
    ∀ (out : List String) (acc : String),
      out.foldl (fun acc line =>
          match pySearch p line with
          | some m => m
          | none => acc) acc
        = (lastMatch p out).getD acc := by
  intro out
  induction out with
  | nil => intro acc; rfl
  | cons line rest ih =>
    intro acc
    simp only [List.foldl_cons, lastMatch]
    cases hr : lastMatch p rest with
    | some m => simp [ih, hr]
    | none =>
      cases hl : pySearch p line with
      | some m => simp [ih, hr, hl]
      | none => simp [ih, hr, hl]

lemma lastMatch_from_entry (p : String) :
    ∀ (out : List String) (m : String), lastMatch p out = some m →
      ∃ line, pySearch p line = some m := by
  intro out
  induction out with
  | nil => intro m h; exact absurd h (by simp [lastMatch])
  | cons line rest ih =>
    intro m h
    unfold lastMatch at h
    revert h
    cases hr : lastMatch p rest with
    | some m0 =>
      intro h
      simp only at h
      cases h
      exact ih _ hr
    | none =>
      intro h
      exact ⟨line, h⟩

/-- C2 (amended): archive-name resolution keeps, for each entry of the
captured output pair `(stdout, stderr)`, the first `re.search` match of
that entry, each later entry's match overwriting the previous one — so the
result is the first match of the last entry having any match, and the typed
`DgrocException('No archive name found.')` when no entry matches.  It is
not the last candidate of the output text: within one multi-line stream the
first match wins (see the counterexample). -/
theorem c2_last_stream_first_match (p : String) (out : List String) :
    get_archive_name out p
      = match lastMatch p out with
        | some m => .ok m
        | none => .error (.dgroc "No archive name found.") := by
  unfold get_archive_name
  rw [get_archive_name_foldl]
  cases h : lastMatch p out with
  | none => simp
  | some m =>
    rcases lastMatch_from_entry p out m h with ⟨line, hline⟩
    have hm : m ≠ "" := pySearch_ne_empty p line m hline
    simp [hm]

/-- C2 counterexample: with an explicit archive command whose captured
stdout holds two candidate archive names on two lines (and empty stderr),
the resolver returns the first candidate `foo-a.tar.gz`, not the last
candidate `foo-b.tar.gz` — the claim's "last match in the output" is wrong
inside a single stream. -/
theorem c2_first_match_in_stream_counterexample :
    get_archive_name ["foo-a.tar.gz\nfoo-b.tar.gz", ""] "foo" = .ok "foo-a.tar.gz" ∧
    pySearch "foo" "foo-b.tar.gz" = some "foo-b.tar.gz" ∧
    "foo-a.tar.gz" ≠ "foo-b.tar.gz" := by
  refine ⟨by rfl, by rfl, by decide⟩

lemma tryTail_shape (s t : List Char) (h : tryTail s = some t) :
    t = ".tar.gz".toList ∨ t = ".tar.bz2".toList := by
  unfold tryTail at h
  split at h
  · cases h; exact Or.inl rfl
  · split at h
    · cases h; exact Or.inr rfl
    · exact absurd h (by simp)

lemma tryTail_suffix (s t : List Char) (h : tryTail s = some t) :
    ".tar.gz".toList <:+ t ∨ ".tar.bz2".toList <:+ t := by
  rcases tryTail_shape s t h with h1 | h1
  · exact Or.inl (h1 ▸ List.suffix_refl _)
  · exact Or.inr (h1 ▸ List.suffix_refl _)

lemma matchMiddle_suffix :
    ∀ (s m : List Char), matchMiddle s = some m →
      ".tar.gz".toList <:+ m ∨ ".tar.bz2".toList <:+ m := by
  intro s
  induction s with
  | nil => intro m h; exact tryTail_suffix [] m h
  | cons c rest ih =>
    intro m h
    unfold matchMiddle at h
    split at h
    · exact tryTail_suffix _ m h
    · revert h
      cases hr : matchMiddle rest with
      | some m0 =>
        intro h
        simp only at h
        cases h
        rcases ih m0 hr with h1 | h1
        · exact Or.inl (h1.trans (List.suffix_cons c m0))
        · exact Or.inr (h1.trans (List.suffix_cons c m0))
      | none =>
        intro h
        exact tryTail_suffix _ m h

lemma searchFrom_suffix (proj : List Char) :
    ∀ (s m : List Char), searchFrom proj s = some m →
      ".tar.gz".toList <:+ m ∨ ".tar.bz2".toList <:+ m := by
  intro s
  induction s with
  | nil =>
    intro m h
    unfold searchFrom matchAt at h
    split at h
    · rcases Option.map_eq_some'.1 h with ⟨mid, hmid, rfl⟩
      have base := matchMiddle_suffix _ mid hmid
      rcases base with h1 | h1
      · exact Or.inl (h1.trans ((List.suffix_cons '-' mid).trans (List.suffix_append proj _)))
      · exact Or.inr (h1.trans ((List.suffix_cons '-' mid).trans (List.suffix_append proj _)))
    · exact absurd h (by simp)
  | cons c rest ih =>
    intro m h
    unfold searchFrom at h
    revert h
    cases hA : matchAt proj (c :: rest) with
    | some m0 =>
      intro h
      simp only at h
      cases h
      unfold matchAt at hA
      split at hA
      · rcases Option.map_eq_some'.1 hA with ⟨mid, hmid, rfl⟩
        rcases matchMiddle_suffix _ mid hmid with h1 | h1
        · exact Or.inl (h1.trans ((List.suffix_cons '-' mid).trans (List.suffix_append proj _)))
        · exact Or.inr (h1.trans ((List.suffix_cons '-' mid).trans (List.suffix_append proj _)))
      · exact absurd hA (by simp)
    | none =>
      intro h
      exact ih m h

/-- C7 (amended): the archive-name pattern requires a compression suffix —
the regex of the source is `<project>\-[^\s]*\.tar(\.gz|\.bz2)` with a
mandatory alternation, so every match ends in `.tar.gz` or `.tar.bz2` and a
plain `<project>-X.tar` candidate never matches (see the counterexample);
the concrete example from the spec does resolve: project `foo` with output
line `foo-git1a2b3c4.tar.gz created` yields `foo-git1a2b3c4.tar.gz`. -/
theorem c7_compressed_suffix_required :
    get_archive_name ["building...", "foo-git1a2b3c4.tar.gz created"] "foo"
      = .ok "foo-git1a2b3c4.tar.gz" ∧
    (∀ (p line m : String), pySearch p line = some m →
      (".tar.gz".toList.isSuffixOf m.toList || ".tar.bz2".toList.isSuffixOf m.toList) = true) := by
  constructor
  · rfl
  · intro p line m h
    unfold pySearch at h
    rcases Option.map_eq_some'.1 h with ⟨l, hl, rfl⟩
    have hsfx := searchFrom_suffix p.toList line.toList l hl
    have htl : (⟨l⟩ : String).toList = l := rfl
    rcases hsfx with h1 | h1
    · have hb : ".tar.gz".toList.isSuffixOf l = true := by
        rw [List.isSuffixOf_iff_suffix]; exact h1
      rw [htl, hb, Bool.true_or]
    · have hb : ".tar.bz2".toList.isSuffixOf l = true := by
        rw [List.isSuffixOf_iff_suffix]; exact h1
      rw [htl, hb, Bool.or_true]

/-- Concrete instance of `c7_compressed_suffix_required`. -/
theorem c7_compressed_suffix_required_witness :
    pySearch "foo" "x foo-a.tar.gz" = some "foo-a.tar.gz" ∧
    (".tar.gz".toList.isSuffixOf "foo-a.tar.gz".toList
      || ".tar.bz2".toList.isSuffixOf "foo-a.tar.gz".toList) = true :=
  ⟨by rfl, c7_compressed_suffix_required.2 "foo" "x foo-a.tar.gz" "foo-a.tar.gz" (by rfl)⟩

/-- C7 counterexample: for project `foo`, the output line
`foo-1.tar created` contains `foo-1.tar` (non-whitespace middle, no
compression suffix), yet the scan finds no match and the resolver raises
the typed no-archive-name error — the claimed optional `.gz`/`.bz2` suffix
is in fact mandatory. -/
theorem c7_plain_tar_counterexample :
    pySearch "foo" "foo-1.tar created" = none ∧
    get_archive_name ["foo-1.tar created"] "foo"
      = .error (.dgroc "No archive name found.") := by
  exact ⟨by rfl, by rfl⟩

/-! ## Release rewrite: C5 and C6 -/

/-- C5 (amended): when the stripped release value splits on `.` into
`cs ++ [n]` with `n` purely numeric and not containing the backend tag, the
rewrite replaces only that trailing component by `n+1` and appends the
`.<YYYYMMDD><tag><commit>` token — the new value therefore begins with
`n+1.` exactly when `n` was the sole component, as in the concrete
single-component instance `Release: 1` ↦ `Release: 2.20140405gitabcd`. -/
theorem c5_numeric_bump (short rel0 n : String) (cs : List String)
    (hsplit : pySplit rel0 "." = cs ++ [n]) (hdig : pyIsDigit n = true)
    (hni : listIsInfixOf short.toList n.toList = false) :
    rel_transform short rel0
      = .ok (String.intercalate "." (cs ++ [toString (pyInt n + 1)])) ∧
    release_row_update "20140405" "git" "abcd" "Release:        1%\x7b?dist\x7d"
      = .ok ("Release:        2.20140405gitabcd%\x7b?dist\x7d", "2") := by
  constructor
  · unfold rel_transform rel_drop rel_bump
    rw [hsplit]
    have hni' : listIsInfixOf short.data n.data = false := hni
    simp [List.getLast?_concat, hni', hdig, List.dropLast_concat, Except.map]
  · rfl

/-- Concrete instance of `c5_numeric_bump` at prior release `1.2`. -/
theorem c5_numeric_bump_witness :
    rel_transform "git" "1.2"
      = .ok (String.intercalate "." (["1"] ++ [toString (pyInt "2" + 1)])) ∧
    release_row_update "20140405" "git" "abcd" "Release:        1%\x7b?dist\x7d"
      = .ok ("Release:        2.20140405gitabcd%\x7b?dist\x7d", "2") :=
  c5_numeric_bump "git" "1.2" "2" ["1"] (by rfl) (by rfl) (by rfl)

/-- C5 counterexample: prior release `1.2` has numeric trailing component
`N = 2` and no backend-tag marker, but the rewritten release value is
`1.3.20140405gitabcd` — it does not begin with `N+1. = 3.` as the claim
states (only the trailing component is bumped, in place). -/
theorem c5_multi_component_counterexample :
    release_row_update "20140405" "git" "abcd" "Release:        1.2%\x7b?dist\x7d"
      = .ok ("Release:        1.3.20140405gitabcd%\x7b?dist\x7d", "1.3") ∧
    pyStartsWith "1.3.20140405gitabcd" "3." = false := by
  exact ⟨by rfl, by rfl⟩

/-- C6 (amended): the last dot-separated component is dropped if and only
if the backend tag occurs as a *substring* of it (the source tests
`reader.short in rel_list[-1]`, not equality); a last component that
neither contains the tag nor is numeric leaves the release value
unchanged. -/
theorem c6_drop_by_substring (short n : String) (cs : List String) :
    (rel_drop short (cs ++ [n])
      = if listIsInfixOf short.toList n.toList then cs else cs ++ [n]) ∧
    (∀ rel0, pySplit rel0 "." = cs ++ [n] →
      rel0 = String.intercalate "." (cs ++ [n]) →
      listIsInfixOf short.toList n.toList = false →
      pyIsDigit n = false →
      rel_transform short rel0 = .ok rel0) := by
  constructor
  · unfold rel_drop
    simp only [List.getLast?_concat]
    by_cases h : listIsInfixOf short.toList n.toList = true
    · simp [h, List.dropLast_concat]
    · simp only [Bool.not_eq_true] at h
      simp [h]
  · intro rel0 hsplit h0 hni hnd
    unfold rel_transform rel_drop rel_bump
    rw [hsplit]
    have hni' : listIsInfixOf short.data n.data = false := hni
    simp [List.getLast?_concat, hni', hnd, ← h0, Except.map]

/-- Concrete instance of `c6_drop_by_substring`: last component `abc`
neither contains `git` nor is numeric, so nothing is dropped or bumped. -/
theorem c6_drop_by_substring_witness :
    rel_drop "git" (["5"] ++ ["abc"])
      = (if listIsInfixOf "git".toList "abc".toList then ["5"] else ["5"] ++ ["abc"]) ∧
    rel_transform "git" "5.abc" = .ok "5.abc" :=
  ⟨(c6_drop_by_substring "git" "abc" ["5"]).1,
   (c6_drop_by_substring "git" "abc" ["5"]).2 "5.abc" (by rfl) (by rfl) (by rfl) (by rfl)⟩

/-- C6 counterexample: for tag `git` and stripped release
`2.20140101gitdead`, the last component `20140101gitdead` is *not equal* to
the tag yet it is dropped (it contains `git` as a substring), and the
remaining numeric `2` is bumped — the result `3` differs from the
unchanged value the equality-based claim predicts. -/
theorem c6_substring_not_equality_counterexample :
    rel_transform "git" "2.20140101gitdead" = .ok "3" ∧
    "20140101gitdead" ≠ "git" ∧
    (Except.ok "3" : Except PyErr String) ≠ .ok "2.20140101gitdead" := by
  refine ⟨by rfl, by decide, ?_⟩
  intro h
  injection h with h
  exact absurd h (by decide)

/-! ## `update_spec` idempotence guard: C4 -/

lemma pySplitAux_ne_nil (d : Char) (ds : List Char) :
    ∀ (fuel : Nat) (s acc : List Char), pySplitAux d ds fuel s acc ≠ [] := by
  intro fuel
  induction fuel with
  | zero => intro s acc; simp [pySplitAux]
  | succ f ih =>
    intro s acc
    cases s with
    | nil => simp [pySplitAux]
    | cons c rest =>
      simp only [pySplitAux]
      split
      · simp
      · exact ih rest (c :: acc)

lemma isPrefixOf_cons_ex {a : Char} {as l : List Char}
    (h : (a :: as).isPrefixOf l = true) : ∃ t, l = a :: t ∧ as.isPrefixOf t = true := by
  cases l with
  | nil => exact absurd h (by simp)
  | cons b bs =>
    rw [List.isPrefixOf_cons₂, Bool.and_eq_true, beq_iff_eq] at h
    exact ⟨bs, by rw [h.1], h.2⟩

lemma pyStartsWith_head (s p : String) (c : Char) (cs : List Char)
    (hp : p.toList = c :: cs) (h : pyStartsWith s p = true) :
    ∃ t, s.toList = c :: t := by
  unfold pyStartsWith at h
  rw [hp] at h
  rcases isPrefixOf_cons_ex h with ⟨t, ht, _⟩
  exact ⟨t, ht⟩

lemma pySplit_get1 (s p : String) (d : Char) (ds : List Char)
    (hp : p.toList = d :: ds) (h : pyStartsWith s p = true) :
    ∃ v, (pySplit s p).get? 1 = some v := by
  unfold pyStartsWith at h
  rw [hp] at h
  rcases isPrefixOf_cons_ex h with ⟨t, ht, _⟩
  unfold pySplit
  rw [hp, ht]
  have hlen : (d :: t).length + 1 = t.length + 1 + 1 := by simp
  rw [hlen]
  simp only [pySplitAux]
  rw [if_pos (show (d :: ds).isPrefixOf (d :: t) = true by rw [← ht]; exact h)]
  cases hne : pySplitAux d ds (t.length + 1) (t.drop ds.length) [] with
  | nil => exact absurd hne (pySplitAux_ne_nil d ds _ _ _)
  | cons x xs => exact ⟨⟨x⟩, by simp⟩

lemma source0_not_changelog (a : String) :
    pyStartsWith ("Source0:        " ++ a) "%changelog" = false := by
  unfold pyStartsWith
  have h : ("Source0:        " ++ a).toList
      = 'S' :: ("ource0:        ".toList ++ a.toList) := by
    show ("Source0:        " ++ a).data = _
    rw [String.data_append]
    rfl
  rw [h]
  have h2 : "%changelog".toList = '%' :: "changelog".toList := rfl
  rw [h2, List.isPrefixOf_cons₂]
  simp

lemma updStep_ok_plain (ty tc ch an pk em sh : String) (st : USt) (l : String)
    (hR : pyStartsWith (pyRstrip l) "Release:" = false)
    (hC : pyStartsWith (pyRstrip l) "%changelog" = false) :
    ∃ st', updStep ty tc ch an pk em sh st l = .ok st' := by
  unfold updStep
  by_cases hV : pyStartsWith (pyRstrip l) "Version:" = true
  · obtain ⟨v, hv⟩ := pySplit_get1 (pyRstrip l) "Version:" 'V' "ersion:".toList rfl hV
    by_cases hS : pyStartsWith (pyRstrip l) "Source0:" = true
    · exact ⟨_, by simp only [hV, if_true, hv, hR, Bool.false_eq_true, if_false, hS,
        source0_not_changelog]; rfl⟩
    · simp only [Bool.not_eq_true] at hS
      exact ⟨_, by simp only [hV, if_true, hv, hR, Bool.false_eq_true, if_false, hS, hC]; rfl⟩
  · simp only [Bool.not_eq_true] at hV
    by_cases hS : pyStartsWith (pyRstrip l) "Source0:" = true
    · exact ⟨_, by simp only [hV, Bool.false_eq_true, if_false, hR, hS, if_true,
        source0_not_changelog]; rfl⟩
    · simp only [Bool.not_eq_true] at hS
      exact ⟨_, by simp only [hV, hR, hS, Bool.false_eq_true, if_false, hC]; rfl⟩

lemma updStep_release_uptodate (ty tc ch an pk em sh : String) (st : USt) (r : String)
    (hr : pyStartsWith (pyRstrip r) "Release:" = true)
    (hc : pyIn ch (pyRstrip r) = true) :
    updStep ty tc ch an pk em sh st r = .error (.dgroc "Spec already up to date") := by
  have hV : pyStartsWith (pyRstrip r) "Version:" = false := by
    by_contra hcontra
    rw [Bool.not_eq_false] at hcontra
    obtain ⟨t1, ht1⟩ := pyStartsWith_head _ "Version:" 'V' "ersion:".toList rfl hcontra
    obtain ⟨t2, ht2⟩ := pyStartsWith_head _ "Release:" 'R' "elease:".toList rfl hr
    rw [ht1] at ht2
    injection ht2 with hch _
    exact absurd hch (by decide)
  unfold updStep release_row_update
  simp only [hV, Bool.false_eq_true, if_false, hr, if_true, hc]

lemma updFold_append_ok (ty tc ch an pk em sh : String) :
    ∀ (l1 : List String) (st : USt) (rest : List String),
      (∀ l ∈ l1, pyStartsWith (pyRstrip l) "Release:" = false) →
      (∀ l ∈ l1, pyStartsWith (pyRstrip l) "%changelog" = false) →
      ∃ st', updFold ty tc ch an pk em sh st (l1 ++ rest)
        = updFold ty tc ch an pk em sh st' rest := by
  intro l1
  induction l1 with
  | nil => intro st rest _ _; exact ⟨st, rfl⟩
  | cons a t ih =>
    intro st rest h1 h2
    obtain ⟨st1, hst1⟩ := updStep_ok_plain ty tc ch an pk em sh st a
      (h1 a (List.mem_cons_self a t)) (h2 a (List.mem_cons_self a t))
    have step : updFold ty tc ch an pk em sh st ((a :: t) ++ rest)
        = updFold ty tc ch an pk em sh st1 (t ++ rest) := by
      simp only [List.cons_append, updFold, hst1]
      rfl
    rw [step]
    exact ih st1 rest (fun l hl => h1 l (List.mem_cons_of_mem a hl))
      (fun l hl => h2 l (List.mem_cons_of_mem a hl))

/-- C4: for every spec file whose first `Release:` line (no `%changelog`
line precedes it) contains the target commit identifier verbatim,
`update_spec` raises the typed `DgrocException('Spec already up to date')`
during the read loop, and — the output file being opened only after that
loop ends — the file is left byte-identical. -/
theorem c4_already_up_to_date_no_write (ty tc ch an pk em sh : String)
    (l1 : List String) (r : String) (l2 : List String)
    (h1 : ∀ l ∈ l1, pyStartsWith (pyRstrip l) "Release:" = false)
    (h2 : ∀ l ∈ l1, pyStartsWith (pyRstrip l) "%changelog" = false)
    (hr : pyStartsWith (pyRstrip r) "Release:" = true)
    (hc : pyIn ch (pyRstrip r) = true) :
    update_spec ty tc ch an pk em sh (l1 ++ r :: l2)
      = .error (.dgroc "Spec already up to date") ∧
    update_spec_run ty tc ch an pk em sh (l1 ++ r :: l2) = l1 ++ r :: l2 := by
  have herr : updFold ty tc ch an pk em sh ⟨none, none, []⟩ (l1 ++ r :: l2)
      = .error (.dgroc "Spec already up to date") := by
    obtain ⟨st', hst'⟩ := updFold_append_ok ty tc ch an pk em sh l1 ⟨none, none, []⟩
      (r :: l2) h1 h2
    rw [hst']
    simp only [updFold, updStep_release_uptodate ty tc ch an pk em sh st' r hr hc]
  constructor
  · unfold update_spec
    rw [herr]
    rfl
  · unfold update_spec_run update_spec
    rw [herr]
    rfl

/-- Concrete instance of `c4_already_up_to_date_no_write`. -/
theorem c4_already_up_to_date_no_write_witness :
    update_spec "20140405" "Sat Apr 05 2014" "abcd" "new.tar" "bob" "b@x" "git"
      (["Name: p", "Version:        1.0"]
        ++ "Release:        2.20140101gitabcd%\x7b?dist\x7d" :: ["%changelog"])
      = .error (.dgroc "Spec already up to date") ∧
    update_spec_run "20140405" "Sat Apr 05 2014" "abcd" "new.tar" "bob" "b@x" "git"
      (["Name: p", "Version:        1.0"]
        ++ "Release:        2.20140101gitabcd%\x7b?dist\x7d" :: ["%changelog"])
      = ["Name: p", "Version:        1.0"]
        ++ "Release:        2.20140101gitabcd%\x7b?dist\x7d" :: ["%changelog"] :=
  c4_already_up_to_date_no_write "20140405" "Sat Apr 05 2014" "abcd" "new.tar" "bob" "b@x"
    "git" ["Name: p", "Version:        1.0"]
    "Release:        2.20140101gitabcd%\x7b?dist\x7d" ["%changelog"]
    (by decide) (by decide) (by rfl) (by rfl)

/-! ## Working-directory restoration: C9 -/

lemma append_tar_ne_empty (s : String) : ((s ++ ".tar") == "") = false := by
  rw [beq_eq_false_iff_ne]
  intro h
  have hd : (s ++ ".tar").data = ("" : String).data := congrArg String.data h
  rw [String.data_append] at hd
  simp at hd

lemma generate_archive_cwd (w : World) (st : St) (project git_folder commit_hash : String) :
    (generate_archive w st project git_folder commit_hash).2.cwd
      = match (generate_archive w st project git_folder commit_hash).1 with
        | .ok _ => st.cwd
        | .error _ => git_folder := by
  unfold generate_archive
  by_cases hex : cfgHasOption st.cfg project "archive_cmd" = true
  · simp only [hex, if_true]
    cases hg : get_archive_name w.archiveOut project with
    | error e => simp [hg]
    | ok name =>
      by_cases hf : w.archiveFileExists (git_folder ++ "/" ++ name) = true
      · simp [hg, hf]
      · simp [hg, hf]
  · simp only [Bool.not_eq_true] at hex
    simp [hex, append_tar_ne_empty]

/-- C9 (amended): `generate_archive` restores the original working
directory on every successful exit, but on its two archive-resolution
error paths — no archive name found in the command output, or the named
archive file missing — the exception is raised before the `os.chdir(cwd)`
of line 273, so the process is left inside the project folder. -/
theorem c9_cwd_restore (w : World) (st : St) (project git_folder commit_hash : String) :
    (∀ name, (generate_archive w st project git_folder commit_hash).1 = .ok name →
      (generate_archive w st project git_folder commit_hash).2.cwd = st.cwd) ∧
    (∀ e, (generate_archive w st project git_folder commit_hash).1 = .error e →
      (generate_archive w st project git_folder commit_hash).2.cwd = git_folder) := by
  have key := generate_archive_cwd w st project git_folder commit_hash
  constructor
  · intro name h
    rw [key, h]
  · intro e h
    rw [key, h]

/-- External-world fixture for the C9 instances: archive command output
with no matching candidate, everything else benign. -/
def c9World : World :=
  { backendOk := true, cloneOk := fun _ => true, pullRc := fun _ => 0,
    commitHash := fun _ => "abcd", archiveOut := ["no candidate here", ""],
    archiveFileExists := fun _ => true, specLines := [],
    today_ymd := "20140405", today_chlog := "Sat Apr 05 2014",
    buildRc := 0, buildOut := "" }

/-- State fixture without an `archive_cmd` option (deterministic-name path). -/
def c9St : St := { cwd := "/home", folderExists := true, cfg := [], pulls := 0 }

/-- State fixture with an `archive_cmd` option (output-scanning path). -/
def c9StBad : St :=
  { cwd := "/home", folderExists := true,
    cfg := [("proj", "archive_cmd", "make dist")], pulls := 0 }

/-- Concrete instance of `c9_cwd_restore` on a successful run. -/
theorem c9_cwd_restore_witness :
    (generate_archive c9World c9St "proj" "/work/proj" "abcd").2.cwd = c9St.cwd :=
  (c9_cwd_restore c9World c9St "proj" "/work/proj" "abcd").1 "proj-abcd.tar" (by rfl)

/-- C9 counterexample: with an explicit archive command whose output holds
no candidate name, `generate_archive` raises the typed error while the
working directory is still the project folder `/work/proj`, not the
original `/home` — the claimed restore-on-every-exit-path is false. -/
theorem c9_error_path_cwd_counterexample :
    (generate_archive c9World c9StBad "proj" "/work/proj" "abcd").1
      = .error (.dgroc "No archive name found.") ∧
    (generate_archive c9World c9StBad "proj" "/work/proj" "abcd").2.cwd = "/work/proj" ∧
    "/work/proj" ≠ "/home" := by
  refine ⟨by rfl, by rfl, by decide⟩

/-! ## Change detection: C3 -/

/-- C3: the equal-hash branch skips cleanly and the absent-hash branch
reports a change (recording the commit under the malformed literal option
name), but the present-but-different branch re-reads that malformed literal
key — absent in any ordinary configuration — so change detection raises
`ConfigParser.NoOptionError` instead of proceeding to archive generation:
the claimed never-raises behaviour fails exactly where the source's
quoting slip (`'%s_hash  % reader.short'`, lines 339 and 343) bites. -/
theorem c3_change_detection_behavior :
    (∀ (cfg : Config) (project short commit : String),
      cfgLookup cfg project (short ++ "_hash") = some commit →
      check_changed cfg project short commit = .ok (false, cfg)) ∧
    (∀ (cfg : Config) (project short commit : String),
      cfgHasOption cfg project (short ++ "_hash") = false →
      check_changed cfg project short commit
        = .ok (true, cfgSet cfg project weirdKey commit)) ∧
    check_changed [("proj", "git_hash", "aaaaaaaa")] "proj" "git" "bbbbbbbb"
      = .error (.noOption weirdKey) := by
  refine ⟨?_, ?_, by rfl⟩
  · intro cfg project short commit hl
    have hho : cfgHasOption cfg project (short ++ "_hash") = true := by
      unfold cfgHasOption
      rw [hl]
      rfl
    unfold check_changed cfgGet
    rw [hho, hl]
    simp
  · intro cfg project short commit hho
    unfold check_changed
    rw [hho]
    rfl

/-- Concrete instances of `c3_change_detection_behavior`: equal hash skips,
absent hash records-and-changes. -/
theorem c3_change_detection_behavior_witness :
    check_changed [("p", "git_hash", "aa")] "p" "git" "aa"
      = .ok (false, [("p", "git_hash", "aa")]) ∧
    check_changed [] "p" "git" "aa" = .ok (true, cfgSet [] "p" weirdKey "aa") :=
  ⟨c3_change_detection_behavior.1 [("p", "git_hash", "aa")] "p" "git" "aa" (by rfl),
   c3_change_detection_behavior.2.1 [] "p" "git" "aa" (by rfl)⟩

/-! ## Pull-failure retry: C1 -/

/-- Project configuration fixture for the retry scenario: git backend, no
persisted hash, no `archive_cmd`. -/
def c1Cfg : Config :=
  [("proj", "git_folder", "/work/proj"), ("proj", "git_url", "git://example/proj"),
   ("proj", "spec_file", "/specs/proj.spec"),
   ("main", "username", "bob"), ("main", "email", "bob@example.com")]

/-- Spec file fixture whose rewrite succeeds. -/
def c1SpecLines : List String :=
  ["Name: proj", "Version:        1.0", "Release:        1%\x7b?dist\x7d",
   "Source0:        old.tar", "%changelog"]

/-- External world in which the first `pull` fails (`returncode 1`) and
every later one succeeds; the re-clone succeeds and the rest of the
pipeline builds the SRPM `/sr/proj-1.src.rpm`. -/
def c1World : World :=
  { backendOk := true, cloneOk := fun _ => true,
    pullRc := fun k => if k == 0 then 1 else 0,
    commitHash := fun _ => "abcd1234",
    archiveOut := ["", ""], archiveFileExists := fun _ => true,
    specLines := c1SpecLines, today_ymd := "20140405",
    today_chlog := "Sat Apr 05 2014", buildRc := 0,
    buildOut := "junk\nWrote: /sr/proj-1.src.rpm\n" }

/-- External world in which every `pull` fails. -/
def c1WorldFail : World := { c1World with pullRc := fun _ => 1 }

/-- Initial process state for the retry scenario. -/
def c1St : St := { cwd := "/home", folderExists := true, cfg := c1Cfg, pulls := 0 }

/-- C1: after a pull failure `generate_new_srpm` re-clones and retries
exactly once (two pulls total, also when the retry fails again), and the
retried run itself does produce the SRPM path — but the recursive call's
value is discarded (line 329 lacks a `return`), so the outer call yields
`None` and the caller records no success for the project. -/
theorem c1_pull_retry_result_discarded :
    (generate_new_srpm c1World "proj" 1 c1St).1 = .ok none ∧
    (generate_new_srpm c1World "proj" 1 c1St).2.pulls = 2 ∧
    (generate_new_srpm c1World "proj" 0
        { cwd := "/home", folderExists := false, cfg := c1Cfg, pulls := 1 }).1
      = .ok (some "/sr/proj-1.src.rpm") ∧
    (generate_new_srpm c1WorldFail "proj" 1 c1St).1 = .ok none ∧
    (generate_new_srpm c1WorldFail "proj" 1 c1St).2.pulls = 2 := by
  refine ⟨by rfl, by rfl, by rfl, by rfl, by rfl⟩

end Dgroc
